import Mathlib

/-
Verification of the pyvider cty type-descriptor library
(src/types: base.py, primitives/{bool,number,string}.py,
collections/{list,map,set}.py, structural/object.py).

The Python code is shallowly embedded: Python runtime values become the
inductive type `PyVal`, descriptor shapes become `CtyT`, exceptions become
`PyErr`, and every fallible Python method becomes a Lean function into
`Except PyErr _`.  Methods that mutate their receiver (CtySet.add) are
modelled by returning the receiver's post-call state explicitly.

Modelling notes, recorded once here:
* Python `bool` is a subclass of `int`, so `isinstance(True, (int, float))`
  holds; the embedding reproduces this (see `isIntOrFloatInstance`).
* `CtyMap.metadata` and `CtyMap.default` only participate in `CtyMap.equal`
  and in the deep-copy performed at construction; no claim touches them, so
  they are not carried in `CtyT.map`.
* Python `set` iteration order is unspecified; sets are modelled as
  duplicate-free lists, and operations that enumerate a set (error-message
  joins, set union) use list order.
* Floats are modelled by an integer payload: only their runtime kind
  (`isinstance` checks) matters to the claims, never float arithmetic.
-/

namespace Pyvider

/-- Exception classes raised by the library.  `pyvider.cty.exceptions` is not
part of src/; per the spec (section 7) ValidationError is one family with
specializations AttributeValidationError, SchemaValidationError and
InvalidTypeError; PyviderError and AttributeError (the built-in) are modelled
as further constructors. -/
inductive PyErr where
  | validationError (m : String)
  | pyviderError (m : String)
  | attributeError (m : String)
  | attributeValidationError (m : String)
  | schemaValidationError (m : String)
  | invalidTypeError (m : String)
deriving DecidableEq, Repr

/-- Python str(e) of an exception: its message. -/
def PyErr.msg : PyErr → String
  | .validationError m => m
  | .pyviderError m => m
  | .attributeError m => m
  | .attributeValidationError m => m
  | .schemaValidationError m => m
  | .invalidTypeError m => m

/-- Shape part of a descriptor: CtyBool/CtyNumber/CtyString carry no shape
parameters; CtyList/CtySet carry element_type; CtyMap carries key_type,
value_type and the mutable flag; CtyObject carries attribute_types (a dict,
modelled as an association list in insertion order) and the four
classification frozensets (modelled as lists of names). -/
inductive CtyT where
  | bool
  | number
  | string
  | list (elementType : CtyT)
  | set (elementType : CtyT)
  | map (keyType : CtyT) (valueType : CtyT) (mutableFlag : Bool)
  | object (attributeTypes : List (String × CtyT))
      (optionalAttributes : List String) (computedAttributes : List String)
      (blockAttributes : List String) (sensitiveAttributes : List String)
deriving Repr

/-- value_type.__class__.__name__ as used in CtyMap error messages. -/
def CtyT.className : CtyT → String
  | .bool => "CtyBool"
  | .number => "CtyNumber"
  | .string => "CtyString"
  | .list _ => "CtyList"
  | .set _ => "CtySet"
  | .map _ _ _ => "CtyMap"
  | .object _ _ _ _ _ => "CtyObject"

/-- Python runtime values that flow through validate calls: the native kinds
(None, bool, int, float, str, list, tuple, dict, MappingProxyType, set) plus
the value-carrying descriptor instances that validate returns (CtyBool,
CtyNumber, CtyString, CtySet wrappers). -/
inductive PyVal where
  | none
  | pyBool (b : Bool)
  | int (n : Int)
  | float (payload : Int)
  | str (s : String)
  | list (xs : List PyVal)
  | tuple (xs : List PyVal)
  | dict (entries : List (PyVal × PyVal))
  | proxy (entries : List (PyVal × PyVal))
  | pset (xs : List PyVal)
  | ctyBool (b : Bool)
  | ctyNumber (v : PyVal)
  | ctyString (s : String)
  | ctySet (elementType : CtyT) (value : List PyVal)
deriving Repr

/-- type(value).__name__. -/
def PyVal.typeName : PyVal → String
  | .none => "NoneType"
  | .pyBool _ => "bool"
  | .int _ => "int"
  | .float _ => "float"
  | .str _ => "str"
  | .list _ => "list"
  | .tuple _ => "tuple"
  | .dict _ => "dict"
  | .proxy _ => "mappingproxy"
  | .pset _ => "set"
  | .ctyBool _ => "CtyBool"
  | .ctyNumber _ => "CtyNumber"
  | .ctyString _ => "CtyString"
  | .ctySet _ _ => "CtySet"

mutual

/-- Structural equality of descriptor shapes.  Where the source compares
descriptor instances with Python == (each CtyType __eq__ compares the kind
and, for some classes, the carried value), the shape-only CtyT makes this
structural equality. -/
def CtyT.beq : CtyT → CtyT → Bool
  | .bool, .bool => true
  | .number, .number => true
  | .string, .string => true
  | .list a, .list b => CtyT.beq a b
  | .set a, .set b => CtyT.beq a b
  | .map k1 v1 m1, .map k2 v2 m2 =>
    CtyT.beq k1 k2 && CtyT.beq v1 v2 && (m1 == m2)
  | .object a1 o1 c1 b1 s1, .object a2 o2 c2 b2 s2 =>
    CtyT.beqAttrs a1 a2 && o1 == o2 && c1 == c2 && b1 == b2 && s1 == s2
  | _, _ => false

/-- Entrywise equality of attribute_types association lists. -/
def CtyT.beqAttrs : List (String × CtyT) → List (String × CtyT) → Bool
  | [], [] => true
  | (n1, t1) :: r1, (n2, t2) :: r2 =>
    n1 == n2 && CtyT.beq t1 t2 && CtyT.beqAttrs r1 r2
  | _, _ => false

end

mutual

/-- Structural equality of embedded Python values. -/
def PyVal.beq : PyVal → PyVal → Bool
  | .none, .none => true
  | .pyBool a, .pyBool b => a == b
  | .int a, .int b => a == b
  | .float a, .float b => a == b
  | .str a, .str b => a == b
  | .list a, .list b => PyVal.beqList a b
  | .tuple a, .tuple b => PyVal.beqList a b
  | .dict a, .dict b => PyVal.beqEntries a b
  | .proxy a, .proxy b => PyVal.beqEntries a b
  | .pset a, .pset b => PyVal.beqList a b
  | .ctyBool a, .ctyBool b => a == b
  | .ctyNumber a, .ctyNumber b => PyVal.beq a b
  | .ctyString a, .ctyString b => a == b
  | .ctySet t1 v1, .ctySet t2 v2 => CtyT.beq t1 t2 && PyVal.beqList v1 v2
  | _, _ => false

/-- Elementwise structural equality of value lists. -/
def PyVal.beqList : List PyVal → List PyVal → Bool
  | [], [] => true
  | x :: xs, y :: ys => PyVal.beq x y && PyVal.beqList xs ys
  | _, _ => false

/-- Entrywise structural equality of dict entry lists. -/
def PyVal.beqEntries : List (PyVal × PyVal) → List (PyVal × PyVal) → Bool
  | [], [] => true
  | (k1, v1) :: r1, (k2, v2) :: r2 =>
    PyVal.beq k1 k2 && PyVal.beq v1 v2 && PyVal.beqEntries r1 r2
  | _, _ => false

end

/-- isinstance(v, CtyType): true exactly for the wrapper instances in the
embedded value universe. -/
def isCtyVal : PyVal → Bool
  | .ctyBool _ => true
  | .ctyNumber _ => true
  | .ctyString _ => true
  | .ctySet _ _ => true
  | _ => false

/-- isinstance(v, (int, float)).  Python bool is a subclass of int, so
booleans satisfy this check as well. -/
def isIntOrFloatInstance : PyVal → Bool
  | .pyBool _ => true
  | .int _ => true
  | .float _ => true
  | _ => false

/-- Numeric value of a Python number, with bool as 0/1 (Python numeric
cross-kind equality: True == 1 == 1.0). -/
def numView : PyVal → Option Int
  | .pyBool b => some (if b then 1 else 0)
  | .int n => some n
  | .float p => some p
  | _ => Option.none

mutual

/-- Python a == b for the embedded values, following each class's __eq__ and
the reflected-operand rule.  CtyBool.__eq__ falls back to the CtyType base
__eq__, which is `isinstance(other, CtyType)`; CtyNumber and CtyString
compare carried values; raw values never equal wrapper instances (the
wrapper's __eq__ checks isinstance of its own class).  CtySet value equality
(an unordered Python set comparison) is modelled as list equality; no claim
exercises it. -/
def pyEq : PyVal → PyVal → Bool
  | .ctyBool _, b => isCtyVal b
  | .ctyNumber va, b =>
    match b with
    | .ctyNumber vb => pyEq va vb
    | _ => false
  | .ctyString sa, b =>
    match b with
    | .ctyString sb => sa == sb
    | _ => false
  | .ctySet et va, b =>
    match b with
    | .ctySet et2 vb => CtyT.beq et et2 && PyVal.beqList va vb
    | _ => false
  | a, b =>
    match numView a, numView b with
    | some x, some y => x == y
    | _, _ =>
      match a, b with
      | .str x, .str y => x == y
      | .none, .none => true
      | .list xs, .list ys => pyEqList xs ys
      | .tuple xs, .tuple ys => pyEqList xs ys
      | .dict xs, .dict ys => PyVal.beqEntries xs ys
      | .proxy xs, .proxy ys => PyVal.beqEntries xs ys
      | .pset xs, .pset ys => PyVal.beqList xs ys
      | _, _ => false

/-- Elementwise Python list equality. -/
def pyEqList : List PyVal → List PyVal → Bool
  | [], [] => true
  | x :: xs, y :: ys => pyEq x y && pyEqList xs ys
  | _, _ => false

end

/-- Hash classes relevant to the embedded values.  Numbers (and the wrappers
hashing their carried value) hash by numeric value; hash(CtyString(s)) is
hash((CtyString,)), a constant shared by every CtyString and (in practice)
distinct from string hashes; string hashes are modelled injectively. -/
inductive PyHash where
  | num (n : Int)
  | strv (s : String)
  | ctyStringClass
  | noneHash
deriving DecidableEq

/-- hash(v) where defined; Option.none for values whose hash the claims never
rely on (containers are unhashable, CtySet's generated hash is unused). -/
def hashView : PyVal → Option PyHash
  | .pyBool b => some (.num (if b then 1 else 0))
  | .int n => some (.num n)
  | .float p => some (.num p)
  | .str s => some (.strv s)
  | .none => some .noneHash
  | .ctyBool b => some (.num (if b then 1 else 0))
  | .ctyNumber v =>
    match v with
    | .pyBool b => some (.num (if b then 1 else 0))
    | .int n => some (.num n)
    | .float p => some (.num p)
    | _ => Option.none
  | .ctyString _ => some .ctyStringClass
  | _ => Option.none

/-- Conservative hash agreement: when both hashes are modelled, compare them;
otherwise fall back to equality alone. -/
def pyHashMay (a b : PyVal) : Bool :=
  match hashView a, hashView b with
  | some h1, some h2 => h1 == h2
  | _, _ => true

/-- Python set membership: same hash bucket and ==. -/
def pySetMem (xs : List PyVal) (a : PyVal) : Bool :=
  xs.any (fun x => pyHashMay x a && pyEq x a)

/-- Python set insertion (set.add, or building a union): a no-op on members,
otherwise the element is appended. -/
def pySetInsert (xs : List PyVal) (a : PyVal) : List PyVal :=
  if pySetMem xs a then xs else xs ++ [a]

/-- Dict lookup by a string key.  Python dict lookup hashes the key and
compares with ==; a str key only ever equals the same str (wrapper __eq__
methods reject non-instances), so only .str keys can match. -/
def dictLookupStr (entries : List (PyVal × PyVal)) (name : String) : Option PyVal :=
  (entries.find? (fun kv =>
    match kv.fst with
    | .str s => s == name
    | _ => false)).map Prod.snd

/-- Lookup in an attribute_types dict. -/
def dictLookupT (attrs : List (String × CtyT)) (name : String) : Option CtyT :=
  (attrs.find? (fun p => p.fst == name)).map Prod.snd

/-- Equality of two Python sets of strings (frozenset ==). -/
def strSetEq (a b : List String) : Bool :=
  a.all b.contains && b.all a.contains

/-- CtyObject.required_attributes: attribute names that are neither optional
nor computed (iterated in attribute_types insertion order). -/
def requiredAttributes (attrs : List (String × CtyT))
    (opt comp : List String) : List String :=
  (attrs.map Prod.fst).filter (fun n => !(opt.contains n) && !(comp.contains n))

mutual

/-- The equal method of each descriptor class: nominal for primitives,
element_type equality for CtyList/CtySet, key/value/mutable equality for
CtyMap (metadata and default not modelled), and for CtyObject equal
attribute-name sets, equal per-attribute types and equal classification sets. -/
def equalT : CtyT → CtyT → Bool
  | .bool, o =>
    match o with
    | .bool => true
    | _ => false
  | .number, o =>
    match o with
    | .number => true
    | _ => false
  | .string, o =>
    match o with
    | .string => true
    | _ => false
  | .list et, o =>
    match o with
    | .list et2 => equalT et et2
    | _ => false
  | .set et, o =>
    match o with
    | .set et2 => equalT et et2
    | _ => false
  | .map kt vt m, o =>
    match o with
    | .map kt2 vt2 m2 => equalT kt kt2 && equalT vt vt2 && (m == m2)
    | _ => false
  | .object a1 o1 c1 b1 s1, o =>
    match o with
    | .object a2 o2 c2 b2 s2 =>
      strSetEq (a1.map Prod.fst) (a2.map Prod.fst) &&
      attrTypesEqual a1 a2 &&
      strSetEq o1 o2 && strSetEq c1 c2 && strSetEq b1 b2 && strSetEq s1 s2
    | _ => false

/-- The per-attribute loop of CtyObject.equal: each of our attribute types
must equal the other object's type of the same name (after the name-set
check the lookup always succeeds in the source). -/
def attrTypesEqual : List (String × CtyT) → List (String × CtyT) → Bool
  | [], _ => true
  | (n, ty) :: rest, a2 =>
    (match dictLookupT a2 n with
     | some t2 => equalT ty t2
     | Option.none => false) && attrTypesEqual rest a2

end

/-- CtyObject.usable_as: false for a non-object; otherwise the other object's
attributes must all exist here, each shared attribute's types must be equal
(self_type.equal(other_type), not a further subsumption), and the other's
required attributes must be a subset of ours. -/
def objectUsableAs (a1 : List (String × CtyT)) (o1 c1 : List String)
    (other : CtyT) : Bool :=
  match other with
  | .object a2 o2 c2 _ _ =>
    (a2.map Prod.fst).all (a1.map Prod.fst).contains &&
    a2.all (fun p =>
      match dictLookupT a1 p.fst with
      | some st => equalT st p.snd
      | Option.none => false) &&
    (requiredAttributes a2 o2 c2).all (requiredAttributes a1 o1 c1).contains
  | _ => false

/-- CtyList.usable_as.  The source short-circuits to False when other is not
a CtyList; when other is a CtyList it evaluates
`all(issubclass(s, o) for s, o in zip(self.types, other.types))`, but CtyList
(a slots dataclass) has no attribute `types` — the attribute access raises
AttributeError before any comparison happens. -/
def listUsableAs (elementType : CtyT) (other : CtyT) : Except PyErr Bool :=
  match other with
  | .list _ => .error (.attributeError "CtyList object has no attribute types")
  | _ => .ok false

/-- Python str() rendering used inside collected error messages (f-string
interpolation of a failing item, and of the offending value in CtyObject's
kind-mismatch message).  Container and wrapper renderings are abbreviated;
no theorem in this file depends on these fragments. -/
def pyStr : PyVal → String
  | .none => "None"
  | .pyBool b => if b then "True" else "False"
  | .int n => toString n
  | .float p => toString p ++ ".0"
  | .str s => s
  | .list _ => "[...]"
  | .tuple _ => "(...)"
  | .dict _ => "dict(...)"
  | .proxy _ => "mappingproxy(...)"
  | .pset _ => "set(...)"
  | .ctyBool b => "CtyBool(value=" ++ (if b then "True" else "False") ++ ")"
  | .ctyNumber _ => "CtyNumber()"
  | .ctyString _ => "CtyString"
  | .ctySet _ _ => "CtySet(...)"

/-- The `.value` projection CtyMap.validate applies to wrapper results
(validated_value.value if isinstance(validated_value, CtyType) else
validated_value); a CtySet carries a Python set in its value field. -/
def unwrapCty : PyVal → PyVal
  | .ctyBool b => .pyBool b
  | .ctyNumber v => v
  | .ctyString s => .str s
  | .ctySet _ xs => .pset xs
  | w => w

/-- Iteration for CtySet.validate: values with __iter__, with str excluded by
the explicit isinstance(value, (str, bytes)) guard (bytes have no
constructor in the embedding); dict and mappingproxy iterate over their
keys, a CtySet instance iterates over its carried value. -/
def setIterItems : PyVal → Option (List PyVal)
  | .list xs => some xs
  | .tuple xs => some xs
  | .dict es => some (es.map Prod.fst)
  | .proxy es => some (es.map Prod.fst)
  | .pset xs => some xs
  | .ctySet _ xs => some xs
  | _ => Option.none

/-- isinstance(item, (set, frozenset)), the nested-set guard of
CtySet.validate; CtySet wrapper instances are attrs objects, not Python
sets, so they do not satisfy it. -/
def isPySetVal : PyVal → Bool
  | .pset _ => true
  | _ => false

/-- Modelled from the spec: pyvider.cty.exceptions is not part of src/.
Section 7 describes one ValidationError family whose specializations are
AttributeValidationError, SchemaValidationError and InvalidTypeError;
PyviderError and the built-in AttributeError fall outside the family, so a
`except ValidationError` clause does not catch them. -/
def PyErr.isValidationFamily : PyErr → Bool
  | .validationError _ => true
  | .attributeValidationError _ => true
  | .schemaValidationError _ => true
  | .invalidTypeError _ => true
  | _ => false

mutual

/-- validate of every descriptor class, one case per class:
CtyBool.validate / CtyNumber.validate / CtyString.validate return a fresh
wrapper carrying the value after an isinstance check (for CtyNumber the
check `isinstance(value, (int, float))` also admits booleans, since Python
bool subclasses int); CtyList.validate maps None to [], rejects
non-list/tuple input with a PyviderError, and validates elements through
`validateListElems`; CtySet.validate maps None and empty iterables to an
empty set, rejects non-iterables and strings, and aggregates per-item
failures through `validateSetElems`; CtyMap.validate rejects non-dict input
and builds a result dict through `mapValidateEntries`, returned as a
MappingProxyType unless mutable; CtyObject.validate passes None through,
rejects non-dicts, checks required then unknown attributes, and fills the
result through `objectValidateAttrs`. -/
def validate (t : CtyT) (v : PyVal) : Except PyErr PyVal :=
  match t with
  | .bool =>
    match v with
    | .pyBool b => .ok (.ctyBool b)
    | _ => .error (.validationError "Value must be a boolean.")
  | .number =>
    if isIntOrFloatInstance v then .ok (.ctyNumber v)
    else .error (.validationError "Value must be a number.")
  | .string =>
    match v with
    | .str s => .ok (.ctyString s)
    | _ => .error (.validationError "Value must be a string.")
  | .list et =>
    match v with
    | .none => .ok (.list [])
    | .list xs =>
      match validateListElems et 0 xs with
      | .ok ws => .ok (.list ws)
      | .error e => .error e
    | .tuple xs =>
      match validateListElems et 0 xs with
      | .ok ws => .ok (.list ws)
      | .error e => .error e
    | _ => .error (.pyviderError ("Expected list or tuple, got " ++ v.typeName))
  | .set et =>
    match v with
    | .none => .ok (.ctySet et [])
    | _ =>
      match setIterItems v with
      | Option.none =>
        .error (.validationError ("Expected iterable, got " ++ v.typeName))
      | some items =>
        if items.isEmpty then .ok (.ctySet et [])
        else
          let res := validateSetElems et 0 items [] []
          if res.snd.isEmpty then .ok (.ctySet et res.fst)
          else
            .error (.validationError
              ("CtySet validation failed:\n" ++ String.intercalate "\n" res.snd))
  | .map kt vt mu =>
    match v with
    | .dict es =>
      match mapValidateEntries kt vt mu es with
      | .ok validated => .ok (if mu then .dict validated else .proxy validated)
      | .error e => .error e
    | _ => .error (.validationError ("Expected dict, got " ++ v.typeName))
  | .object attrs opt comp blk sens =>
    match v with
    | .none => .ok .none
    | .dict es =>
      match (requiredAttributes attrs opt comp).find?
          (fun name => (dictLookupStr es name).isNone) with
      | some name =>
        .error (.validationError ("Missing required attribute: " ++ name))
      | Option.none =>
        let unknown := es.filter (fun kv =>
          match kv.fst with
          | .str s => !((attrs.map Prod.fst).contains s)
          | _ => true)
        if unknown.isEmpty then
          match objectValidateAttrs attrs opt comp es with
          | .ok validated => .ok (.dict validated)
          | .error e => .error e
        else
          .error (.validationError ("Unknown attributes: " ++
            String.intercalate ", " (unknown.map (fun kv => pyStr kv.fst))))
    | _ =>
      .error (.validationError
        ("Expected a dictionary, got " ++ v.typeName ++ ": " ++ pyStr v))
termination_by (sizeOf t, sizeOf v)

/-- The element loop of CtyList.validate: the first element whose validation
raises aborts the loop with a single error naming that index. -/
def validateListElems (et : CtyT) (i : Nat) (xs : List PyVal) :
    Except PyErr (List PyVal) :=
  match xs with
  | [] => .ok []
  | x :: rest =>
    match validate et x with
    | .ok w =>
      match validateListElems et (i + 1) rest with
      | .ok ws => .ok (w :: ws)
      | .error e => .error e
    | .error e =>
      .error (.validationError
        ("Invalid element at index " ++ toString i ++ ": " ++ e.msg))
termination_by (sizeOf et, sizeOf xs)

/-- The element loop of CtySet.validate: nested sets and failing elements
are recorded as message strings and the loop continues; valid elements are
inserted into the result set. -/
def validateSetElems (et : CtyT) (i : Nat) (xs : List PyVal)
    (validated : List PyVal) (errs : List String) : List PyVal × List String :=
  match xs with
  | [] => (validated, errs)
  | x :: rest =>
    if isPySetVal x then
      validateSetElems et (i + 1) rest validated
        (errs ++ ["Item " ++ toString i ++ ": " ++ pyStr x ++
          " -> Nested sets are not allowed in CtySet."])
    else
      match validate et x with
      | .ok w => validateSetElems et (i + 1) rest (pySetInsert validated w) errs
      | .error e =>
        validateSetElems et (i + 1) rest validated
          (errs ++ ["Item " ++ toString i ++ ": " ++ pyStr x ++ " -> " ++ e.msg])
termination_by (sizeOf et, sizeOf xs)

/-- The entry loop of CtyMap.validate: each key is validated against
key_type, each value is wrapped by `wrapValue`, and both are unwrapped to
native shape (.value of any CtyType instance, elementwise inside lists)
before being stored.  Input dict keys are distinct, so insertion order is
kept by consing. -/
def mapValidateEntries (kt vt : CtyT) (mu : Bool)
    (es : List (PyVal × PyVal)) : Except PyErr (List (PyVal × PyVal)) :=
  match es with
  | [] => .ok []
  | (k, v) :: rest =>
    match validate kt k with
    | .error e => .error e
    | .ok vk =>
      match wrapValue kt vt mu v with
      | .error e => .error e
      | .ok wv =>
        let unwrapped :=
          match wv with
          | .list items => PyVal.list (items.map unwrapCty)
          | w => unwrapCty w
        match mapValidateEntries kt vt mu rest with
        | .error e => .error e
        | .ok restv => .ok ((unwrapCty vk, unwrapped) :: restv)
termination_by (sizeOf (CtyT.map kt vt mu), sizeOf es)

/-- CtyMap._wrap_value.  In source order: CtyType instances pass through;
lists wrap elementwise; a dict where value_type is a nested CtyMap is
validated against a map rebuilt with the outer key_type, the nested
value_type's own value type, and the outer mutable flag (metadata is also
forwarded but is not modelled); a bare str where value_type is a CtyMap is
promoted to the single-entry dict keying the string by itself and validated
against value_type; then the primitive branches (bool before the int/float
branch, which a bool also satisfies); anything else is rejected. -/
def wrapValue (kt vt : CtyT) (mu : Bool) (v : PyVal) : Except PyErr PyVal :=
  if isCtyVal v then .ok v
  else
    match v with
    | .list xs =>
      match wrapList kt vt mu xs with
      | .ok ws => .ok (.list ws)
      | .error e => .error e
    | .dict es =>
      match vt with
      | .map _kt2 vt2 _mu2 => validate (.map kt vt2 mu) (.dict es)
      | _ =>
        .error (.validationError
          ("Invalid type for nested dict. Expected " ++ vt.className ++ "."))
    | .str s =>
      match vt with
      | .map kt2 vt2 mu2 => validate (.map kt2 vt2 mu2) (.dict [(.str s, .str s)])
      | .string => .ok (.ctyString s)
      | _ =>
        .error (.validationError
          ("Invalid type for map value: str. Expected " ++ vt.className ++ "."))
    | .pyBool b =>
      match vt with
      | .bool => .ok (.ctyBool b)
      | .number => .ok (.ctyNumber (.pyBool b))
      | _ =>
        .error (.validationError
          ("Invalid type for map value: bool. Expected " ++ vt.className ++ "."))
    | .int n =>
      match vt with
      | .number => .ok (.ctyNumber (.int n))
      | _ =>
        .error (.validationError
          ("Invalid type for map value: int. Expected " ++ vt.className ++ "."))
    | .float p =>
      match vt with
      | .number => .ok (.ctyNumber (.float p))
      | _ =>
        .error (.validationError
          ("Invalid type for map value: float. Expected " ++ vt.className ++ "."))
    | w =>
      .error (.validationError
        ("Invalid type for map value: " ++ w.typeName ++ ". Expected " ++
          vt.className ++ "."))
termination_by (sizeOf (CtyT.map kt vt mu), sizeOf v)

/-- Elementwise _wrap_value over a Python list value. -/
def wrapList (kt vt : CtyT) (mu : Bool) (xs : List PyVal) :
    Except PyErr (List PyVal) :=
  match xs with
  | [] => .ok []
  | x :: rest =>
    match wrapValue kt vt mu x with
    | .error e => .error e
    | .ok w =>
      match wrapList kt vt mu rest with
      | .error e => .error e
      | .ok ws => .ok (w :: ws)
termination_by (sizeOf (CtyT.map kt vt mu), sizeOf xs)

/-- The attribute loop of CtyObject.validate: attributes absent from the
input that are optional or computed are materialized as None; attributes
absent and neither optional nor computed are skipped (the earlier required
check makes this unreachable); present attributes are validated against
their descriptor, a ValidationError-family failure being rewrapped with the
attribute name (the source quotes the name; the quotes are omitted here). -/
def objectValidateAttrs (attrs : List (String × CtyT)) (opt comp : List String)
    (es : List (PyVal × PyVal)) : Except PyErr (List (PyVal × PyVal)) :=
  match attrs with
  | [] => .ok []
  | (name, ty) :: rest =>
    match dictLookupStr es name with
    | Option.none =>
      if opt.contains name || comp.contains name then
        match objectValidateAttrs rest opt comp es with
        | .ok r => .ok ((.str name, .none) :: r)
        | .error e => .error e
      else
        objectValidateAttrs rest opt comp es
    | some av =>
      match validate ty av with
      | .ok w =>
        match objectValidateAttrs rest opt comp es with
        | .ok r => .ok ((.str name, w) :: r)
        | .error e => .error e
      | .error e =>
        if e.isValidationFamily then
          .error (.validationError
            ("Invalid value for attribute " ++ name ++ ": " ++ e.msg))
        else
          .error (.validationError
            ("Error validating attribute " ++ name ++ ": " ++ e.msg))
termination_by (sizeOf attrs, sizeOf es)

end

/-- CtyObject.__attrs_post_init__: the schema-definition checks run at
construction time, before any validate call.  The isinstance checks on
attribute_types and its values hold by typing in the embedding; the four
classification sets are checked in source order against the attribute
names.  Python renders each difference as a set (deduplicated, unspecified
order); the model joins the names in list order. -/
def ctyObjectInit (attrs : List (String × CtyT))
    (opt comp blk sens : List String) : Except PyErr CtyT :=
  let names := attrs.map Prod.fst
  let unknownOpt := opt.filter (fun n => !(names.contains n))
  if !unknownOpt.isEmpty then
    .error (.attributeValidationError
      ("Unknown optional attributes: " ++ String.intercalate ", " unknownOpt))
  else
    let unknownComp := comp.filter (fun n => !(names.contains n))
    if !unknownComp.isEmpty then
      .error (.attributeValidationError
        ("Unknown computed attributes: " ++ String.intercalate ", " unknownComp))
    else
      let unknownBlk := blk.filter (fun n => !(names.contains n))
      if !unknownBlk.isEmpty then
        .error (.attributeValidationError
          ("Unknown block attributes: " ++ String.intercalate ", " unknownBlk))
      else
        let unknownSens := sens.filter (fun n => !(names.contains n))
        if !unknownSens.isEmpty then
          .error (.attributeValidationError
            ("Unknown sensitive attributes: " ++ String.intercalate ", " unknownSens))
        else
          .ok (.object attrs opt comp blk sens)

/-- Observation used to state the construction-failure claim: the outcome is
an AttributeValidationError (the schema-definition error family raised by
__attrs_post_init__), whatever its message. -/
def isAttributeValidationError : Except PyErr CtyT → Bool
  | .error (.attributeValidationError _) => true
  | _ => false

/-- CtySet.add.  The source validates `self.value | {element}` (the union of
the receiver's set with the new raw element) and, on success, mutates the
receiver with `self.value.add(element)` and returns None.  The model
returns the receiver's post-call value together with the method's return
value; a ValidationError from the check is rewrapped. -/
def ctySetAdd (et : CtyT) (selfValue : List PyVal) (element : PyVal) :
    Except PyErr (List PyVal × PyVal) :=
  match validate (.set et) (.pset (pySetInsert selfValue element)) with
  | .ok _ => .ok (pySetInsert selfValue element, .none)
  | .error e => .error (.validationError ("Failed to add element: " ++ e.msg))

/-- CtySet.remove: validates the item, filters every stored element equal
(Python !=, i.e. the negation of ==) to the validated wrapper, and returns
a new CtySet built by evolve, leaving the receiver untouched; any failure
is rewrapped.  The returned list is the new instance's value. -/
def ctySetRemove (et : CtyT) (selfValue : List PyVal) (item : PyVal) :
    Except PyErr (List PyVal) :=
  match validate et item with
  | .ok w => .ok (selfValue.filter (fun x => !(pyEq x w)))
  | .error e => .error (.validationError ("Failed to remove item: " ++ e.msg))

theorem dictLookupT_cons (m : String) (t : CtyT) (rest : List (String × CtyT))
    (n : String) :
    dictLookupT ((m, t) :: rest) n =
      if m == n then some t else dictLookupT rest n := by
  by_cases h : (m == n) = true
  · simp [dictLookupT, List.find?_cons_of_pos, h]
  · simp only [Bool.not_eq_true] at h
    simp [dictLookupT, List.find?_cons_of_neg, h]

theorem dictLookupT_mem {a : List (String × CtyT)} {n : String} {t : CtyT}
    (h : dictLookupT a n = some t) : (n, t) ∈ a := by
  induction a with
  | nil => simp [dictLookupT] at h
  | cons p rest ih =>
    obtain ⟨pn, pt⟩ := p
    rw [dictLookupT_cons] at h
    by_cases hn : (pn == n) = true
    · rw [if_pos hn] at h
      injection h with h
      simp only [beq_iff_eq] at hn
      subst hn; subst h
      exact List.mem_cons_self _ _
    · rw [if_neg hn] at h
      exact List.mem_cons_of_mem _ (ih h)

theorem dictLookupT_isSome {a : List (String × CtyT)} {n : String}
    (h : n ∈ a.map Prod.fst) : ∃ t, dictLookupT a n = some t := by
  induction a with
  | nil => simp at h
  | cons p rest ih =>
    obtain ⟨pn, pt⟩ := p
    simp only [List.map_cons, List.mem_cons] at h
    rcases h with rfl | hmem
    · exact ⟨pt, by rw [dictLookupT_cons]; simp⟩
    · obtain ⟨t, ht⟩ := ih hmem
      by_cases hn : pn = n
      · exact ⟨pt, by rw [dictLookupT_cons]; simp [hn]⟩
      · exact ⟨t, by rw [dictLookupT_cons]; simp [hn, ht]⟩

theorem dictLookupT_of_nodup {a : List (String × CtyT)}
    (hnd : (a.map Prod.fst).Nodup) {n : String} {t : CtyT}
    (h : (n, t) ∈ a) : dictLookupT a n = some t := by
  induction a with
  | nil => simp at h
  | cons p rest ih =>
    obtain ⟨pn, pt⟩ := p
    simp only [List.map_cons, List.nodup_cons] at hnd
    rcases List.mem_cons.mp h with heq | htail
    · injection heq with h1 h2
      subst h1; subst h2
      rw [dictLookupT_cons]; simp
    · have hne : pn ≠ n := by
        intro hc
        exact hnd.1 (hc ▸ List.mem_map_of_mem Prod.fst htail)
      rw [dictLookupT_cons]
      simp only [beq_iff_eq, if_neg hne]
      exact ih hnd.2 htail

/-- C1: the claim says a boolean input succeeds only under Bool, never under
Number or String.  The code disagrees at CtyNumber: `isinstance(True, (int,
float))` holds because Python bool subclasses int, so
CtyNumber().validate(True) succeeds and returns a CtyNumber carrying True,
while CtyBool and CtyString behave as the claim states. -/
theorem number_validate_accepts_python_bool :
    validate .number (.pyBool true) = .ok (.ctyNumber (.pyBool true)) ∧
    validate .bool (.pyBool true) = .ok (.ctyBool true) ∧
    validate .string (.pyBool true) =
      .error (.validationError "Value must be a string.") := by
  refine ⟨?_, ?_, ?_⟩ <;> simp [validate, isIntOrFloatInstance]

/-- C8: CtyList.usable_as never returns the element-type subsumption result.
For a non-CtyList argument the isinstance guard short-circuits to False, but
for any CtyList argument the body reads the nonexistent attribute
`self.types` (a leftover from CtyTuple) and raises AttributeError, instead
of comparing element types as the claim states. -/
theorem list_usable_as_raises_attribute_error :
    listUsableAs .string (.list .string) =
      .error (.attributeError "CtyList object has no attribute types") ∧
    listUsableAs .string .bool = .ok false := by
  exact ⟨rfl, rfl⟩

/-- C10: CtyMap.validate(None) fails the isinstance(value, dict) check and
raises a ValidationError naming NoneType, while CtyList.validate(None)
returns an empty list and CtySet.validate(None) returns an empty CtySet. -/
theorem map_none_rejected_list_set_none_empty :
    (∀ kt vt mu, validate (.map kt vt mu) PyVal.none =
      .error (.validationError "Expected dict, got NoneType")) ∧
    (∀ et, validate (.list et) PyVal.none = .ok (.list [])) ∧
    (∀ et, validate (.set et) PyVal.none = .ok (.ctySet et [])) := by
  refine ⟨fun kt vt mu => ?_, fun et => ?_, fun et => ?_⟩ <;>
    simp [validate, PyVal.typeName]

/-- Witness for C10: the null-handling theorem applied at concrete Map, List
and Set descriptors. -/
theorem map_none_rejected_list_set_none_empty_witness :
    validate (.map .string .number false) PyVal.none =
      .error (.validationError "Expected dict, got NoneType") ∧
    validate (.list .number) PyVal.none = .ok (.list []) ∧
    validate (.set .number) PyVal.none = .ok (.ctySet .number []) :=
  ⟨map_none_rejected_list_set_none_empty.1 .string .number false,
   map_none_rejected_list_set_none_empty.2.1 .number,
   map_none_rejected_list_set_none_empty.2.2 .number⟩

/-- C3 counterexample: validation is not idempotent.  CtyString().validate
of "x" succeeds and returns a CtyString wrapper instance, but validating
that returned value again fails the isinstance(value, str) check, where the
claim requires T.validate(T.validate(v)) to succeed and equal
T.validate(v). -/
theorem string_validate_not_idempotent_cex :
    validate .string (.str "x") = .ok (.ctyString "x") ∧
    validate .string (.ctyString "x") =
      .error (.validationError "Value must be a string.") := by
  exact ⟨by simp [validate], by simp [validate]⟩

/-- C3 amended: validation of already-validated values fails rather than
being idempotent.  For every primitive descriptor (Bool, Number, String)
and every value the first validation accepts, re-validating the returned
value raises: validate returns a CtyType wrapper instance, which is not of
the native kind the isinstance check requires. -/
theorem primitive_revalidation_fails (t : CtyT) (v w : PyVal)
    (hp : t = CtyT.bool ∨ t = CtyT.number ∨ t = CtyT.string)
    (hok : validate t v = .ok w) : ∃ e, validate t w = .error e := by
  rcases hp with rfl | rfl | rfl
  · cases v <;> simp [validate] at hok <;>
      (subst hok
       exact ⟨.validationError "Value must be a boolean.", by simp [validate]⟩)
  · cases v <;> simp [validate, isIntOrFloatInstance] at hok <;>
      (subst hok
       exact ⟨.validationError "Value must be a number.",
         by simp [validate, isIntOrFloatInstance]⟩)
  · cases v <;> simp [validate] at hok <;>
      (subst hok
       exact ⟨.validationError "Value must be a string.", by simp [validate]⟩)

/-- Witness for C3: the amended theorem applied at CtyString and the input
"x". -/
theorem primitive_revalidation_fails_witness :
    ∃ e, validate .string (.ctyString "x") = .error e :=
  primitive_revalidation_fails .string (.str "x") (.ctyString "x")
    (Or.inr (Or.inr rfl)) (by simp [validate])

/-- The index arithmetic of the CtyList element loop: a prefix of valid
elements followed by a failing element makes the loop raise at that
element's index, whatever follows it. -/
theorem validateListElems_fail_fast (et : CtyT) (x : PyVal) (e : PyErr)
    (hx : validate et x = .error e) :
    ∀ (pre : List PyVal) (i : Nat) (rest : List PyVal),
      (∀ y ∈ pre, ∃ w, validate et y = .ok w) →
      validateListElems et i (pre ++ x :: rest) =
        .error (.validationError
          ("Invalid element at index " ++ toString (i + pre.length) ++ ": " ++
            e.msg)) := by
  intro pre
  induction pre with
  | nil =>
    intro i rest _
    simp [validateListElems, hx]
  | cons y pre ih =>
    intro i rest hgood
    obtain ⟨w, hw⟩ := hgood y (List.mem_cons_self _ _)
    have hrec := ih (i + 1) rest (fun z hz => hgood z (List.mem_cons_of_mem _ hz))
    have hidx : i + 1 + pre.length = i + (pre.length + 1) := by omega
    rw [hidx] at hrec
    simp [validateListElems, hw, hrec, List.length_cons]

/-- C4 amended: CtyList.validate is fail-fast, not aggregating.  For any
sequence consisting of a prefix of valid elements, a failing element, and
an arbitrary remainder (which may contain further invalid elements), it
raises one ValidationError naming only the first failing index; the
remainder is never examined. -/
theorem list_validate_fail_fast (et : CtyT) (pre : List PyVal) (x : PyVal)
    (rest : List PyVal) (e : PyErr)
    (hgood : ∀ y ∈ pre, ∃ w, validate et y = .ok w)
    (hx : validate et x = .error e) :
    validate (.list et) (.list (pre ++ x :: rest)) =
      .error (.validationError
        ("Invalid element at index " ++ toString pre.length ++ ": " ++ e.msg)) := by
  have h := validateListElems_fail_fast et x e hx pre 0 rest hgood
  simp only [Nat.zero_add] at h
  simp [validate, h]

/-- C4 counterexample: a list with invalid elements at indices 0 and 1 under
CtyList(CtyNumber) produces an error mentioning only index 0, not an
aggregate of all failing indices. -/
theorem list_validate_first_error_only_cex :
    validate (.list .number) (.list [.str "a", .str "b"]) =
      .error (.validationError
        "Invalid element at index 0: Value must be a number.") := by
  simp [validate, validateListElems, PyErr.msg, isIntOrFloatInstance]
  rfl

/-- Witness for C4: the fail-fast theorem applied to a valid prefix of one
number followed by two invalid strings. -/
theorem list_validate_fail_fast_witness :
    validate (.list .number) (.list [.int 1, .str "a", .str "b"]) =
      .error (.validationError
        "Invalid element at index 1: Value must be a number.") := by
  have h := list_validate_fail_fast .number [.int 1] (.str "a") [.str "b"]
    (.validationError "Value must be a number.")
    (by
      intro y hy
      simp only [List.mem_singleton] at hy
      subst hy
      exact ⟨.ctyNumber (.int 1), by simp [validate, isIntOrFloatInstance]⟩)
    (by simp [validate, isIntOrFloatInstance])
  exact h.trans (by rfl)

/-- C5 counterexample: CtySet(element_type=CtyNumber()) with empty contents,
after add(5), holds [5] — the receiver's element contents changed in place
and the call returned None, not a new Set value. -/
theorem set_add_mutates_cex :
    ctySetAdd .number [] (.int 5) = .ok ([.int 5], .none) ∧
    [PyVal.int 5] ≠ ([] : List PyVal) := by
  constructor
  · simp [ctySetAdd, validate, pySetInsert, pySetMem, setIterItems, isPySetVal,
      validateSetElems, isIntOrFloatInstance, pyEq, pyHashMay, hashView]
  · simp

/-- C5 amended: remove is a pure functional update but add is not.  A
successful add returns None (not a new Set) and leaves the receiver holding
the union of its old contents with the raw element, so the receiver changes
whenever the element was not already a member; a successful remove leaves
the receiver untouched and returns the value for a fresh CtySet that is
exactly the receiver's value with everything Python-equal to the validated
item filtered out: every result element comes from the receiver and is
unequal to the validated item, and every receiver element unequal to the
validated item is retained. -/
theorem set_add_mutates_remove_functional :
    (∀ et val elem newVal ret, ctySetAdd et val elem = .ok (newVal, ret) →
      ret = PyVal.none ∧ newVal = pySetInsert val elem ∧
        (pySetMem val elem = false → newVal ≠ val)) ∧
    (∀ et val item newVal, ctySetRemove et val item = .ok newVal →
      ∀ w, validate et item = .ok w →
        newVal = val.filter (fun x => !(pyEq x w)) ∧
        (∀ x ∈ newVal, x ∈ val ∧ pyEq x w = false) ∧
        (∀ x ∈ val, pyEq x w = false → x ∈ newVal)) := by
  constructor
  · intro et val elem newVal ret h
    unfold ctySetAdd at h
    split at h
    · simp only [Except.ok.injEq, Prod.mk.injEq] at h
      obtain ⟨h1, h2⟩ := h
      subst h1; subst h2
      refine ⟨rfl, rfl, fun hmem hc => ?_⟩
      rw [pySetInsert, if_neg (by simp [hmem])] at hc
      have hlen := congrArg List.length hc
      simp at hlen
    · simp at h
  · intro et val item newVal h w hw
    unfold ctySetRemove at h
    split at h
    next w0 hw0 =>
      injection h with h
      subst h
      rw [hw0] at hw
      injection hw with hw
      subst hw
      refine ⟨rfl, ?_, ?_⟩
      · intro x hx
        rw [List.mem_filter] at hx
        exact ⟨hx.1, by simpa using hx.2⟩
      · intro x hx hne
        exact List.mem_filter.mpr ⟨hx, by simp [hne]⟩
    next e he => simp at h

/-- Witness for C5: the amended theorem's add clause applied to the empty
receiver and element 5, and its remove clause applied to a receiver of two
validated numbers with item 5, which keeps exactly the non-matching
element. -/
theorem set_add_mutates_remove_functional_witness :
    (PyVal.none = PyVal.none ∧
     [PyVal.int 5] = pySetInsert [] (.int 5) ∧
     (pySetMem [] (.int 5) = false → [PyVal.int 5] ≠ ([] : List PyVal))) ∧
    ([PyVal.ctyNumber (.int 7)] =
       [PyVal.ctyNumber (.int 5), PyVal.ctyNumber (.int 7)].filter
         (fun x => !(pyEq x (.ctyNumber (.int 5)))) ∧
     (∀ x ∈ [PyVal.ctyNumber (.int 7)],
        x ∈ [PyVal.ctyNumber (.int 5), PyVal.ctyNumber (.int 7)] ∧
          pyEq x (.ctyNumber (.int 5)) = false) ∧
     (∀ x ∈ [PyVal.ctyNumber (.int 5), PyVal.ctyNumber (.int 7)],
        pyEq x (.ctyNumber (.int 5)) = false →
          x ∈ [PyVal.ctyNumber (.int 7)])) :=
  ⟨set_add_mutates_remove_functional.1 .number [] (.int 5) [.int 5] .none
    (by simp [ctySetAdd, validate, pySetInsert, pySetMem, setIterItems,
      isPySetVal, validateSetElems, isIntOrFloatInstance, pyEq, pyHashMay,
      hashView]),
   set_add_mutates_remove_functional.2 .number
    [.ctyNumber (.int 5), .ctyNumber (.int 7)] (.int 5) [.ctyNumber (.int 7)]
    (by simp [ctySetRemove, validate, isIntOrFloatInstance, pyEq, numView])
    (.ctyNumber (.int 5))
    (by simp [validate, isIntOrFloatInstance])⟩

/-- C6: CtyObject construction fails eagerly.  Whenever some name in the
optional, computed, block or sensitive classification sets is not an
attribute name, __attrs_post_init__ raises an AttributeValidationError at
construction time, before any validate call can happen. -/
theorem object_init_rejects_unknown_classification
    (attrs : List (String × CtyT)) (opt comp blk sens : List String)
    (n : String)
    (hn : n ∈ opt ∨ n ∈ comp ∨ n ∈ blk ∨ n ∈ sens)
    (hout : n ∉ attrs.map Prod.fst) :
    isAttributeValidationError (ctyObjectInit attrs opt comp blk sens) = true := by
  have hcont : ((attrs.map Prod.fst).contains n) = false := by
    simpa using hout
  simp only [ctyObjectInit]
  split
  · rfl
  next h1 =>
    split
    · rfl
    next h2 =>
      split
      · rfl
      next h3 =>
        split
        · rfl
        next h4 =>
          exfalso
          simp only [Bool.not_eq_true, Bool.not_eq_false',
            List.isEmpty_iff] at h1 h2 h3 h4
          rcases hn with hn | hn | hn | hn
          · exact absurd (h1 ▸ List.mem_filter.mpr ⟨hn, by simp only [hcont, Bool.not_false]⟩)
              (List.not_mem_nil n)
          · exact absurd (h2 ▸ List.mem_filter.mpr ⟨hn, by simp only [hcont, Bool.not_false]⟩)
              (List.not_mem_nil n)
          · exact absurd (h3 ▸ List.mem_filter.mpr ⟨hn, by simp only [hcont, Bool.not_false]⟩)
              (List.not_mem_nil n)
          · exact absurd (h4 ▸ List.mem_filter.mpr ⟨hn, by simp only [hcont, Bool.not_false]⟩)
              (List.not_mem_nil n)

/-- Witness for C6: the construction from the spec's example,
Object(attribute_types=dict(a=String()), optional_attributes=set(["b"])),
fails immediately with an unknown optional attribute. -/
theorem object_init_rejects_unknown_classification_witness :
    isAttributeValidationError (ctyObjectInit [("a", CtyT.string)] ["b"] [] [] []) =
      true :=
  object_init_rejects_unknown_classification [("a", CtyT.string)] ["b"] [] [] []
    "b" (Or.inl (by simp)) (by simp)

/-- C9 counterexample: string promotion does not universally succeed.  For a
Map whose nested Map's value type is CtyNumber, a bare scalar string value
is promoted to the self-keyed single-entry dict, but the nested validation
rejects the string against CtyNumber, so validate raises rather than
succeeding as the claim states for every Map-of-Map descriptor. -/
theorem map_string_promotion_fails_cex :
    validate (.map .string (.map .string .number false) false)
      (.dict [(.str "k", .str "s")]) =
    .error (.validationError
      "Invalid type for map value: str. Expected CtyNumber.") := by
  simp [validate, mapValidateEntries, wrapValue, isCtyVal, unwrapCty, PyErr.msg,
    CtyT.className]

/-- C9 amended: where a nested Map is expected, a bare scalar string s is
always promoted to the single-entry dict keying s by itself and validated
against the nested Map descriptor, never rejected as a scalar; the overall
validation succeeds exactly when the promoted map validates, e.g. whenever
the nested value type is CtyString, yielding the entry s: s. -/
theorem map_string_promotion :
    (∀ kt kt2 vt2 mu mu2 s, wrapValue kt (.map kt2 vt2 mu2) mu (.str s) =
      validate (.map kt2 vt2 mu2) (.dict [(.str s, .str s)])) ∧
    (∀ k s : String,
      validate (.map .string (.map .string .string false) false)
        (.dict [(.str k, .str s)]) =
      .ok (.proxy [(.str k, .proxy [(.str s, .str s)])])) := by
  constructor
  · intro kt kt2 vt2 mu mu2 s
    simp [wrapValue, isCtyVal]
  · intro k s
    simp [validate, mapValidateEntries, wrapValue, isCtyVal, unwrapCty]

/-- Witness for C9: the promotion theorem applied at the key "k" and the
scalar string "s". -/
theorem map_string_promotion_witness :
    validate (.map .string (.map .string .string false) false)
      (.dict [(.str "k", .str "s")]) =
    .ok (.proxy [(.str "k", .proxy [(.str "s", .str "s")])]) :=
  map_string_promotion.2 "k" "s"

/-- C2: CtyObject.usable_as(other) for an Object other is exactly the
conjunction of (a) other's attribute names being a subset of ours, (b) the
descriptors of every name other declares being equal (an exact type match,
not a further subsumption), and (c) other's required attributes being a
subset of ours; the nodup hypothesis states that other's attribute dict has
distinct keys, which Python dicts guarantee. -/
theorem object_usable_as_iff
    (a1 a2 : List (String × CtyT)) (o1 c1 o2 c2 b2 s2 : List String)
    (hnd : (a2.map Prod.fst).Nodup) :
    objectUsableAs a1 o1 c1 (.object a2 o2 c2 b2 s2) = true ↔
      ((∀ n, n ∈ a2.map Prod.fst → n ∈ a1.map Prod.fst) ∧
       (∀ n t1 t2, dictLookupT a1 n = some t1 → dictLookupT a2 n = some t2 →
         equalT t1 t2 = true) ∧
       (∀ n, n ∈ requiredAttributes a2 o2 c2 →
         n ∈ requiredAttributes a1 o1 c1)) := by
  simp only [objectUsableAs, Bool.and_eq_true, List.all_eq_true]
  constructor
  · rintro ⟨⟨hA, hB⟩, hC⟩
    refine ⟨?_, ?_, ?_⟩
    · intro n hn
      simpa using hA n hn
    · intro n t1 t2 h1 h2
      have hmem := dictLookupT_mem h2
      have hb := hB (n, t2) hmem
      rw [h1] at hb
      simpa using hb
    · intro n hn
      simpa using hC n hn
  · rintro ⟨hA, hB, hC⟩
    refine ⟨⟨?_, ?_⟩, ?_⟩
    · intro n hn
      simpa using hA n hn
    · intro p hp
      obtain ⟨n, t2⟩ := p
      have hn : n ∈ a2.map Prod.fst := List.mem_map_of_mem Prod.fst hp
      obtain ⟨t1, h1⟩ := dictLookupT_isSome (hA n hn)
      have h2 := dictLookupT_of_nodup hnd hp
      rw [h1]
      simpa using hB n t1 t2 h1 h2
    · intro n hn
      simpa using hC n hn

/-- Witness for C2: the spec's subsumption example, concluded through the
iff.  B has attributes x, y both required; A has the same attribute types
with y optional, so A requires only x; B.usable_as(A) holds. -/
theorem object_usable_as_iff_witness :
    objectUsableAs [("x", CtyT.string), ("y", CtyT.string)] [] []
      (.object [("x", CtyT.string), ("y", CtyT.string)] ["y"] [] [] []) =
      true :=
  (object_usable_as_iff [("x", CtyT.string), ("y", CtyT.string)]
    [("x", CtyT.string), ("y", CtyT.string)] [] [] ["y"] [] [] []
    (by decide)).mpr
    ⟨fun n hn => hn,
     by
       intro n t1 t2 h1 h2
       have m1 := dictLookupT_mem h1
       simp only [List.mem_cons, List.mem_singleton, List.not_mem_nil,
         or_false, Prod.mk.injEq] at m1
       have m2 := dictLookupT_mem h2
       simp only [List.mem_cons, List.mem_singleton, List.not_mem_nil,
         or_false, Prod.mk.injEq] at m2
       rcases m1 with ⟨-, rfl⟩ | ⟨-, rfl⟩ <;>
         rcases m2 with ⟨-, rfl⟩ | ⟨-, rfl⟩ <;> simp [equalT],
     by
       intro n hn
       simp [requiredAttributes] at hn ⊢
       subst hn
       simp⟩

theorem dictLookupStr_cons_strkey (s : String) (v : PyVal)
    (rest : List (PyVal × PyVal)) (n : String) :
    dictLookupStr ((.str s, v) :: rest) n =
      if s == n then some v else dictLookupStr rest n := by
  by_cases h : (s == n) = true
  · simp [dictLookupStr, List.find?_cons_of_pos, h]
  · simp only [Bool.not_eq_true] at h
    simp [dictLookupStr, List.find?_cons_of_neg, h]

/-- The attribute loop of CtyObject.validate materializes every optional or
computed attribute that the raw input does not provide as an explicit None
entry of the result. -/
theorem objectValidateAttrs_materializes
    (opt comp : List String) (es : List (PyVal × PyVal)) (name : String)
    (hoc : name ∈ opt ∨ name ∈ comp)
    (habs : dictLookupStr es name = Option.none) :
    ∀ (attrs : List (String × CtyT)) (res : List (PyVal × PyVal)),
      name ∈ attrs.map Prod.fst →
      objectValidateAttrs attrs opt comp es = .ok res →
      dictLookupStr res name = some PyVal.none := by
  intro attrs
  induction attrs with
  | nil =>
    intro res h
    simp at h
  | cons p rest ih =>
    obtain ⟨an, aty⟩ := p
    intro res hmem hok
    simp only [objectValidateAttrs] at hok
    by_cases han : an = name
    · subst han
      split at hok
      · split at hok
        next hcond =>
          split at hok
          next r hr =>
            injection hok with hok
            subst hok
            rw [dictLookupStr_cons_strkey]
            simp
          next e he => exact absurd hok (by simp)
        next hcond =>
          exfalso
          rcases hoc with h | h <;> simp [h] at hcond
      next av heq =>
        rw [habs] at heq
        cases heq
    · have hmem2 : name ∈ rest.map Prod.fst := by
        simp only [List.map_cons, List.mem_cons] at hmem
        rcases hmem with rfl | hmem
        · exact absurd rfl han
        · exact hmem
      split at hok
      · split at hok
        next hcond =>
          split at hok
          next r hr =>
            injection hok with hok
            subst hok
            rw [dictLookupStr_cons_strkey, if_neg (by simpa using han)]
            exact ih r hmem2 hr
          next e he => exact absurd hok (by simp)
        next hcond => exact ih res hmem2 hok
      next av heq =>
        split at hok
        next w hw =>
          split at hok
          next r hr =>
            injection hok with hok
            subst hok
            rw [dictLookupStr_cons_strkey, if_neg (by simpa using han)]
            exact ih r hmem2 hr
          next e he => exact absurd hok (by simp)
        next e he =>
          split at hok <;> exact absurd hok (by simp)

/-- C7 amended: every attribute listed in optional or computed but absent
from the input mapping is present in the validated result bound to an
explicit null, not omitted; present attributes, however, are bound to
their validated wrapper forms, so the example yields
name: CtyString(value="x"), count: None rather than name: "x" (see the
counterexample). -/
theorem object_validate_materializes_null
    (attrs : List (String × CtyT)) (opt comp blk sens : List String)
    (es res : List (PyVal × PyVal)) (name : String)
    (hmem : name ∈ attrs.map Prod.fst)
    (hoc : name ∈ opt ∨ name ∈ comp)
    (habs : dictLookupStr es name = Option.none)
    (hok : validate (.object attrs opt comp blk sens) (.dict es) =
      .ok (.dict res)) :
    dictLookupStr res name = some PyVal.none := by
  simp only [validate] at hok
  split at hok
  · exact absurd hok (by simp)
  · split at hok
    · split at hok
      next validated hval =>
        injection hok with hok
        injection hok with hok
        subst hok
        exact objectValidateAttrs_materializes opt comp es name hoc habs
          attrs validated hmem hval
      next e he => exact absurd hok (by simp)
    · exact absurd hok (by simp)

/-- C7 counterexample: with Object(name: String, count: Number; count
optional), validate of the mapping providing only name returns a dict
binding count to an explicit None but binding name to the CtyString wrapper
carrying "x", not to the raw string "x" the claim's example states. -/
theorem object_validate_wrapper_values_cex :
    validate
      (.object [("name", .string), ("count", .number)] ["count"] [] [] [])
      (.dict [(.str "name", .str "x")]) =
    .ok (.dict [(.str "name", .ctyString "x"), (.str "count", .none)]) ∧
    PyVal.dict [(.str "name", .ctyString "x"), (.str "count", .none)] ≠
      PyVal.dict [(.str "name", .str "x"), (.str "count", .none)] := by
  constructor
  · simp [validate, objectValidateAttrs, requiredAttributes, dictLookupStr,
      pyStr]
  · simp

/-- Witness for C7: the materialization theorem applied to the example
schema and input. -/
theorem object_validate_materializes_null_witness :
    dictLookupStr [(.str "name", .ctyString "x"), (.str "count", .none)]
      "count" = some PyVal.none :=
  object_validate_materializes_null
    [("name", .string), ("count", .number)] ["count"] [] [] []
    [(.str "name", .str "x")]
    [(.str "name", .ctyString "x"), (.str "count", .none)] "count"
    (by simp) (Or.inl (by simp)) (by simp [dictLookupStr])
    (by simp [validate, objectValidateAttrs, requiredAttributes, dictLookupStr,
      pyStr])

end Pyvider
